import Mathlib

/-!
Verification of the nutrition-score engine.

This file gives a shallow embedding of the scoring engine found in
`nutrition_score/utils/nutri_score.py`, `nutrition_score/utils/helpers.py`
and `nutrition_score/utils/constants.py`, and proves properties of it.

Modelling conventions:
* Python floats are modelled as rationals (`ℚ`); every numeric literal in
  the source tables is exactly representable.
* The stateful `NutriScoreCalculator` instance is modelled by explicit
  state passing: `setup_profiles` corresponds to a `Profiles` record,
  `get_input` produces a `CalcState` record holding the scaled instance
  fields, and each method takes these records as arguments.
* A Python `raise ValueError(msg)` is modelled as `Except.error msg`.
* The external JSON data files (`nutri_score_conversion.json`,
  `additives.json`) are not part of the scoring code; they are passed as
  explicit parameters (`ConversionTable`, `List AdditiveRecord`).
-/

namespace NutritionScore

/-- Food type constant from `nutri_score.py`. -/
def GENERAL_FOOD : String := "general_food"

/-- Food type constant from `nutri_score.py`. -/
def RED_MEAT : String := "red_meat"

/-- Food type constant from `nutri_score.py`. -/
def CHEESE : String := "cheese"

/-- Food type constant from `nutri_score.py`. -/
def FATS_NUTS_SEEDS : String := "fats_oils_nuts_seeds"

/-- Food type constant from `nutri_score.py`. -/
def BEVERAGES : String := "beverages"

/-- Food type constant from `nutri_score.py`. -/
def WATER : String := "water"

/-- Error message template `INVALID_FOOD_TYPE` from `nutri_score.py`,
applied to the offending food type. -/
def INVALID_FOOD_TYPE (food_type : String) : String :=
  "Invalid food type: " ++ food_type ++
    ". Must be one of general_food, red_meat, cheese, fats_oils_nuts_seeds, beverages, water."

/-- Negative component threshold table from `nutri_score.py`. -/
def ENERGY_THRESHOLD : List ℚ := [335, 670, 1005, 1340, 1675, 2010, 2345, 2680, 3015, 3350]

/-- Negative component threshold table from `nutri_score.py`. -/
def SATURATED_FAT_THRESHOLD : List ℚ := [1, 2, 3, 4, 5, 6, 7, 8, 9, 10]

/-- Negative component threshold table from `nutri_score.py`. -/
def SUGARS_THRESHOLD : List ℚ := [3.4, 6.8, 10, 14, 17, 20, 24, 27, 31, 34, 37, 41, 44, 48, 51]

/-- Negative component threshold table from `nutri_score.py`. -/
def SODIUM_THRESHOLD : List ℚ :=
  [0.2, 0.4, 0.6, 0.8, 1, 1.2, 1.4, 1.6, 1.8, 2, 2.2, 2.4, 2.6, 2.8, 3, 3.2, 3.4, 3.6, 3.8, 4]

/-- Negative component threshold table from `nutri_score.py`. -/
def ENERGY_FROM_SATURATES_THRESHOLD : List ℚ := [120, 240, 360, 480, 600, 720, 840, 960, 1080, 1200]

/-- Negative component threshold table from `nutri_score.py`. -/
def SATURATES_OVER_TOTAL_FAT_THRESHOLD : List ℚ := [10, 16, 22, 28, 34, 40, 46, 52, 58, 64]

/-- Negative component threshold table from `nutri_score.py`. -/
def ENERGY_BEVERAGES_THRESHOLD : List ℚ := [30, 90, 150, 210, 240, 270, 300, 330, 360, 390]

/-- Negative component threshold table from `nutri_score.py`. -/
def SUGARS_BEVERAGES_THRESHOLD : List ℚ := [0.5, 2, 3.5, 5, 6, 7, 8, 9, 10, 11]

/-- Positive component threshold table from `nutri_score.py`. -/
def PROTEIN_THRESHOLD : List ℚ := [2.4, 4.8, 7.2, 9.6, 12, 14, 17]

/-- Positive component threshold table from `nutri_score.py`. -/
def FIBER_THRESHOLD : List ℚ := [3.0, 4.1, 5.2, 6.3, 7.4]

/-- Positive component threshold table from `nutri_score.py`. -/
def FRUIT_THRESHOLD : List ℚ := [40, 60, 80, 80, 80]

/-- Positive component threshold table from `nutri_score.py`. -/
def PROTEIN_BEVERAGES_THRESHOLD : List ℚ := [1.2, 1.5, 1.8, 2.1, 2.4, 2.7, 3.0]

/-- Positive component threshold table from `nutri_score.py`. -/
def FRUIT_BEVERAGES_THRESHOLD : List ℚ := [40, 40, 60, 60, 80, 80]

/-- Letter category threshold table from `nutri_score.py` (the source spells it `FODD`). -/
def GENERAL_FODD_CATEGORY_THRESHOLD : List (ℤ × String) := [(0, "A"), (2, "B"), (10, "C"), (18, "D")]

/-- Letter category threshold table from `nutri_score.py`. -/
def FATS_NUTS_SEEDS_CATEGORY_THRESHOLD : List (ℤ × String) :=
  [(-6, "A"), (2, "B"), (10, "C"), (18, "D")]

/-- Letter category threshold table from `nutri_score.py`. -/
def BEVERAGES_CATEGORY_THRESHOLD : List (ℤ × String) := [(1, "B"), (6, "C"), (9, "D")]

/-- Constant from `constants.py`. -/
def MAX_ADDITIVES_PENALTY_DEFAULT_VALUE : ℕ := 50

/-- Constant from `constants.py`. -/
def NON_ORGANIC_PENALTY_DEFAULT_VALUE : ℤ := 10

/-- Constant from `constants.py`: presence penalty per risk class (no, low, moderate, high). -/
def RISK_ADDITIVE_PRESENCE_PENALTY : List ℕ := [0, 5, 15, 30]

/-- Constant from `constants.py`: per-additive penalty per risk class (no, low, moderate, high). -/
def RISK_PER_ADDITIVE_PENALTY : List ℕ := [0, 2, 5, 10]

/-- Profile factors stored by `NutriScoreCalculator.setup_profiles`. -/
structure Profiles where
  energy_profile : ℚ
  saturated_fat_profile : ℚ
  sugar_profile : ℚ
  sodium_profile : ℚ
deriving DecidableEq

/-- Profile record produced by `setup_profiles({})`: every factor defaults to 1. -/
def default_profiles : Profiles := ⟨1, 1, 1, 1⟩

/-- Nutrient input dictionary handed to `NutriScoreCalculator.calculate`
(missing keys default to 0 / False, which is modelled by the caller
supplying those defaults). -/
structure Nutritions where
  energy : ℚ := 0
  energy_from_saturates : ℚ := 0
  saturated_fat : ℚ := 0
  saturates_over_total_fat : ℚ := 0
  sugars : ℚ := 0
  nn_sweeteners : Bool := false
  sodium : ℚ := 0
  protein : ℚ := 0
  fiber : ℚ := 0
  fruit_percentage : ℚ := 0
deriving DecidableEq

/-- Instance fields of `NutriScoreCalculator` after `get_input` ran: each
nutrient scaled by its profile factor. -/
structure CalcState where
  energy : ℚ
  energy_from_saturates : ℚ
  saturated_fat : ℚ
  saturates_over_total_fat : ℚ
  sugars : ℚ
  nn_sweeteners : Bool
  sodium : ℚ
  protein : ℚ
  fiber : ℚ
  fruit_percentage : ℚ
deriving DecidableEq

/-- `NutriScoreCalculator.get_input`: scales the nutrient inputs by the
profile factors and stores them as instance state. -/
def get_input (p : Profiles) (n : Nutritions) : CalcState :=
  { energy := n.energy * p.energy_profile
    energy_from_saturates := n.energy_from_saturates * p.energy_profile
    saturated_fat := n.saturated_fat * p.saturated_fat_profile
    saturates_over_total_fat := n.saturates_over_total_fat * p.saturated_fat_profile
    sugars := n.sugars * p.sugar_profile
    nn_sweeteners := n.nn_sweeteners
    sodium := n.sodium * p.sodium_profile
    protein := n.protein
    fiber := n.fiber
    fruit_percentage := n.fruit_percentage }

/-- `NutriScoreCalculator.points_by_threshold`: index of the first
threshold entry at or above the value, or the table length if none. -/
def points_by_threshold (value : ℚ) (threshold_list : List ℚ) : ℕ :=
  match threshold_list with
  | [] => 0
  | t :: rest => if value ≤ t then 0 else points_by_threshold value rest + 1

/-- `NutriScoreCalculator.calculate_negative_points`. -/
def calculate_negative_points (st : CalcState) (food_type : String) : ℕ :=
  if food_type = GENERAL_FOOD ∨ food_type = RED_MEAT ∨ food_type = CHEESE then
    points_by_threshold st.energy ENERGY_THRESHOLD
      + points_by_threshold st.saturated_fat SATURATED_FAT_THRESHOLD
      + points_by_threshold st.sugars SUGARS_THRESHOLD
      + points_by_threshold st.sodium SODIUM_THRESHOLD
  else if food_type = FATS_NUTS_SEEDS then
    points_by_threshold st.energy_from_saturates ENERGY_FROM_SATURATES_THRESHOLD
      + points_by_threshold st.sugars SUGARS_THRESHOLD
      + points_by_threshold st.saturates_over_total_fat SATURATES_OVER_TOTAL_FAT_THRESHOLD
      + points_by_threshold st.sodium SODIUM_THRESHOLD
  else if food_type = BEVERAGES then
    points_by_threshold st.energy ENERGY_BEVERAGES_THRESHOLD
      + points_by_threshold st.saturated_fat SATURATED_FAT_THRESHOLD
      + points_by_threshold st.sugars SUGARS_BEVERAGES_THRESHOLD
      + points_by_threshold st.sodium SODIUM_THRESHOLD
      + (if st.nn_sweeteners then 4 else 0)
  else 0

/-- `NutriScoreCalculator.calculate_positive_points`. -/
def calculate_positive_points (st : CalcState) (food_type : String) (negative_points : ℕ) : ℕ :=
  let fiber_points := points_by_threshold st.fiber FIBER_THRESHOLD
  let protein_points :=
    if food_type ≠ BEVERAGES then points_by_threshold st.protein PROTEIN_THRESHOLD
    else points_by_threshold st.protein PROTEIN_BEVERAGES_THRESHOLD
  let fruit_points :=
    if food_type ≠ BEVERAGES then points_by_threshold st.fruit_percentage FRUIT_THRESHOLD
    else points_by_threshold st.fruit_percentage FRUIT_BEVERAGES_THRESHOLD
  let protein_points' :=
    if food_type = GENERAL_FOOD ∨ food_type = RED_MEAT ∨ food_type = CHEESE then
      let capped := if food_type = RED_MEAT then min protein_points 2 else protein_points
      if 11 ≤ negative_points ∧ food_type ≠ CHEESE then 0 else capped
    else if food_type = FATS_NUTS_SEEDS then
      if 7 ≤ negative_points then 0 else protein_points
    else protein_points
  protein_points' + fiber_points + fruit_points

/-- Raw signed nutri-score for a non-water category: negative points minus
positive points, exactly as computed at the end of
`NutriScoreCalculator.calculate`. -/
def raw_score (p : Profiles) (n : Nutritions) (food_type : String) : ℤ :=
  let st := get_input p n
  let negative_points := calculate_negative_points st food_type
  let positive_points := calculate_positive_points st food_type negative_points
  (negative_points : ℤ) - (positive_points : ℤ)

/-- `NutriScoreCalculator.calculate`: validates the food type, returns 0
for water, otherwise negative minus positive points. The Python
`raise ValueError` is modelled as `Except.error`. -/
def calculate (p : Profiles) (n : Nutritions) (food_type : String) : Except String ℤ :=
  if food_type ∉ [GENERAL_FOOD, RED_MEAT, CHEESE, FATS_NUTS_SEEDS, BEVERAGES, WATER] then
    Except.error (INVALID_FOOD_TYPE food_type)
  else if food_type = WATER then Except.ok 0
  else Except.ok (raw_score p n food_type)

/-- Loop body of `NutriScoreCalculator.categorize`: first threshold at or
above the score wins; beyond the last threshold the letter is "E". -/
def categorize_loop (category_threshold : List (ℤ × String)) (score : ℤ) : String :=
  match category_threshold with
  | [] => "E"
  | (threshold, category) :: rest =>
    if score ≤ threshold then category else categorize_loop rest score

/-- `NutriScoreCalculator.categorize`. -/
def categorize (score : ℤ) (food_type : String) : Except String String :=
  if food_type = WATER then Except.ok "A"
  else if food_type = GENERAL_FOOD ∨ food_type = RED_MEAT ∨ food_type = CHEESE then
    Except.ok (categorize_loop GENERAL_FODD_CATEGORY_THRESHOLD score)
  else if food_type = FATS_NUTS_SEEDS then
    Except.ok (categorize_loop FATS_NUTS_SEEDS_CATEGORY_THRESHOLD score)
  else if food_type = BEVERAGES then
    Except.ok (categorize_loop BEVERAGES_CATEGORY_THRESHOLD score)
  else Except.error (INVALID_FOOD_TYPE food_type)

/-- Abstract form of the `nutri_score_conversion.json` table read by
`convert_nutri_score` in `helpers.py`: for each raw score a solid and a
liquid 0-100 value. The file itself is external data, so it is a
parameter here. -/
structure ConversionTable where
  solid : ℤ → ℕ
  liquid : ℤ → ℕ

/-- `convert_nutri_score` from `helpers.py`: clamps outside the interior
range, otherwise reads the conversion table. -/
def convert_nutri_score (data : ConversionTable) (nutri_score : ℤ) (solid : Bool) : ℕ :=
  if solid then
    if nutri_score < -3 then 100
    else if 19 ≤ nutri_score then 0
    else data.solid nutri_score
  else
    if nutri_score < -3 then 80
    else if 10 ≤ nutri_score then 0
    else data.liquid nutri_score

/-- One record of the `additives.json` reference data, as consumed by
`calculate_additive_risk` in `helpers.py`. `efsa_risk` uses the sentinel
-1 for "unset"; `risk` is the fallback classification. -/
structure AdditiveRecord where
  e_number : String
  name : String
  type : String
  efsa_risk : ℤ
  risk : ℕ
deriving DecidableEq

/-- Effective risk ordinal of a record: `efsa_risk` when it is not the -1
sentinel, else the fallback `risk` (from the if in
`calculate_additive_risk`). -/
def effective_risk (item : AdditiveRecord) : ℕ :=
  if item.efsa_risk ≠ -1 then item.efsa_risk.toNat else item.risk

/-- Python's `needle in haystack` substring test on strings, on the
underlying character lists: does the second list start with the first? -/
def starts_with_chars : List Char → List Char → Bool
  | [], _ => true
  | _ :: _, [] => false
  | c :: cs, h :: hs => c == h && starts_with_chars cs hs

/-- Python's `needle in haystack` substring test on strings: is the first
list a contiguous sublist of the second? -/
def substring_of : List Char → List Char → Bool
  | needle, [] => starts_with_chars needle []
  | needle, h :: hs => starts_with_chars needle (h :: hs) || substring_of needle hs

/-- The matching test `if additive in item.get("e-number")` of
`calculate_additive_risk`: the supplied identifier string is contained in
the record's e-number field. -/
def additive_matches (additive : String) (item : AdditiveRecord) : Bool :=
  substring_of additive.toList item.e_number.toList

/-- One matched-additive entry appended to `additives_list` in
`calculate_additive_risk`. -/
structure AdditiveDetail where
  e_number : String
  name : String
  type : String
  risk : ℕ
deriving DecidableEq

/-- Loop state of `calculate_additive_risk`: the four presence flags, the
running total and the matched-record list. -/
structure RiskState where
  risk_level_present : List Bool
  total_risk : ℕ
  additives_list : List AdditiveDetail
deriving DecidableEq

/-- Body of the match branch inside the nested loop of
`calculate_additive_risk`: mark the effective ordinal present, add the
per-additive penalty, append the detail record. -/
def apply_match (st : RiskState) (item : AdditiveRecord) (additive : String) : RiskState :=
  let risk_level := effective_risk item
  { risk_level_present := st.risk_level_present.set risk_level true
    total_risk := st.total_risk + RISK_PER_ADDITIVE_PENALTY.getD risk_level 0
    additives_list := st.additives_list ++
      [{ e_number := additive, name := item.name, type := item.type, risk := risk_level }] }

/-- One iteration of the inner loop of `calculate_additive_risk`: process
an identifier against a record when it matches, else leave the state. -/
def process_additive (st : RiskState) (item : AdditiveRecord) (additive : String) : RiskState :=
  if additive_matches additive item then apply_match st item additive else st

/-- Final loop of `calculate_additive_risk`, unrolled for the fixed
four-element presence list (`range(3, -1, -1)` with a break): the presence
penalty of the highest risk class marked present. -/
def presence_bonus (present : List Bool) : ℕ :=
  if present.getD 3 false then RISK_ADDITIVE_PRESENCE_PENALTY.getD 3 0
  else if present.getD 2 false then RISK_ADDITIVE_PRESENCE_PENALTY.getD 2 0
  else if present.getD 1 false then RISK_ADDITIVE_PRESENCE_PENALTY.getD 1 0
  else if present.getD 0 false then RISK_ADDITIVE_PRESENCE_PENALTY.getD 0 0
  else 0

/-- `calculate_additive_risk` from `helpers.py`, with the `additives.json`
reference data passed explicitly. Returns the total risk and the matched
detail list. -/
def calculate_additive_risk (data : List AdditiveRecord) (additives : List String) :
    ℕ × List AdditiveDetail :=
  let st0 : RiskState := ⟨[false, false, false, false], 0, []⟩
  let st := data.foldl (fun acc item => additives.foldl (fun a x => process_additive a item x) acc) st0
  (st.total_risk + presence_bonus st.risk_level_present, st.additives_list)

/-- Specification-side list of all (record, identifier) pairs the nested
loop of `calculate_additive_risk` treats as matches, in processing order. -/
def matched_pairs : List AdditiveRecord → List String → List (AdditiveRecord × String)
  | [], _ => []
  | item :: rest, additives =>
    (additives.filter (fun a => additive_matches a item)).map (fun a => (item, a))
      ++ matched_pairs rest additives

/-- Specification-side sum of the per-additive penalties over all matches. -/
def per_item_total (data : List AdditiveRecord) (additives : List String) : ℕ :=
  ((matched_pairs data additives).map
    (fun pr => RISK_PER_ADDITIVE_PENALTY.getD (effective_risk pr.1) 0)).sum

/-- Specification-side presence penalty: the single penalty of the highest
effective ordinal among all matches (0 when nothing of positive class
matched). -/
def highest_presence_penalty (data : List AdditiveRecord) (additives : List String) : ℕ :=
  let ords := (matched_pairs data additives).map (fun pr => effective_risk pr.1)
  if 3 ∈ ords then 30 else if 2 ∈ ords then 15 else if 1 ∈ ords then 5 else 0

/-- Defaulting of the additive-penalty cap in `fetch_and_calculate`
(`profiles.get(c.MAX_ADDITIVES_PENALTY) or c.MAX_ADDITIVES_PENALTY_DEFAULT_VALUE`):
Python `or` replaces a missing key and a falsy (zero) value by the default. -/
def max_additive_penalty_of (profile_value : Option ℕ) : ℕ :=
  match profile_value with
  | some v => if v ≠ 0 then v else MAX_ADDITIVES_PENALTY_DEFAULT_VALUE
  | none => MAX_ADDITIVES_PENALTY_DEFAULT_VALUE

/-- Clamping of the computed additive risk in `fetch_and_calculate`:
`additives_risk = min(additives_risk, max_additive_penalty)`. -/
def capped_additives_risk (computed : ℕ) (profile_value : Option ℕ) : ℕ :=
  min computed (max_additive_penalty_of profile_value)

/-- Non-organic penalty resolution in `fetch_and_calculate`: 0 when the
product is organic, else `profiles.get(c.NON_ORGANIC_PENALTY, 10)`. -/
def non_organic_penalty_value (organic : Bool) (profile_value : Option ℤ) : ℤ :=
  if organic then 0 else profile_value.getD NON_ORGANIC_PENALTY_DEFAULT_VALUE

/-- Final aggregation in `fetch_and_calculate`:
`final_score = max(nutriscore_scaled_100 - additives_risk - non_organic_penalty, 0)`. -/
def final_score (scaled additives_risk : ℤ) (organic : Bool) (profile_value : Option ℤ) : ℤ :=
  max (scaled - additives_risk - non_organic_penalty_value organic profile_value) 0

/-- Concrete nutrient record of the end-to-end example (energy 1700,
saturated fat 4, sugars 20, sodium 1.0, fiber 4.5, protein 10, fruit
percentage 0). -/
def example_nutritions : Nutritions :=
  { energy := 1700, saturated_fat := 4, sugars := 20, sodium := 1,
    protein := 10, fiber := 4.5, fruit_percentage := 0 }

/-- Concrete nutrient record maximising every negative component for the
general-food category. -/
def max_negative_nutritions : Nutritions :=
  { energy := 10000, saturated_fat := 100, sugars := 100, sodium := 10 }

/-- Concrete nutrient record maximising every positive component while
keeping all negative components at zero. -/
def max_positive_nutritions : Nutritions :=
  { protein := 100, fiber := 100, fruit_percentage := 100 }

/-- Concrete conversion table (constant values) used to exercise
`convert_nutri_score` at specific raw scores. -/
def const_conversion_table : ConversionTable :=
  { solid := fun _ => 42, liquid := fun _ => 37 }

/-- Concrete additive reference record of low risk class (fallback `risk`
1, `efsa_risk` unset). -/
def low_risk_record : AdditiveRecord :=
  { e_number := "e100", name := "Curcumin", type := "colorant", efsa_risk := -1, risk := 1 }

/-- Concrete additive reference record of high risk class (`efsa_risk` 3). -/
def high_risk_record : AdditiveRecord :=
  { e_number := "e200", name := "Sorbic acid", type := "preservative", efsa_risk := 3, risk := 0 }

/-! ## Helper lemmas -/

theorem points_by_threshold_le_length (value : ℚ) (threshold_list : List ℚ) :
    points_by_threshold value threshold_list ≤ threshold_list.length := by
  induction threshold_list with
  | nil => simp [points_by_threshold]
  | cons t rest ih =>
    simp only [points_by_threshold, List.length_cons]
    split
    · exact Nat.zero_le _
    · exact Nat.succ_le_succ ih

theorem points_by_threshold_mono {v₁ v₂ : ℚ} (threshold_list : List ℚ) (h : v₁ ≤ v₂) :
    points_by_threshold v₁ threshold_list ≤ points_by_threshold v₂ threshold_list := by
  induction threshold_list with
  | nil => exact Nat.le_refl _
  | cons t rest ih =>
    simp only [points_by_threshold]
    by_cases h₂ : v₂ ≤ t
    · rw [if_pos (le_trans h h₂), if_pos h₂]
    · rw [if_neg h₂]
      split
      · exact Nat.zero_le _
      · exact Nat.succ_le_succ ih

theorem calculate_negative_points_general (st : CalcState) :
    calculate_negative_points st GENERAL_FOOD =
      points_by_threshold st.energy ENERGY_THRESHOLD
      + points_by_threshold st.saturated_fat SATURATED_FAT_THRESHOLD
      + points_by_threshold st.sugars SUGARS_THRESHOLD
      + points_by_threshold st.sodium SODIUM_THRESHOLD := rfl

theorem calculate_negative_points_red_meat (st : CalcState) :
    calculate_negative_points st RED_MEAT =
      points_by_threshold st.energy ENERGY_THRESHOLD
      + points_by_threshold st.saturated_fat SATURATED_FAT_THRESHOLD
      + points_by_threshold st.sugars SUGARS_THRESHOLD
      + points_by_threshold st.sodium SODIUM_THRESHOLD := rfl

theorem calculate_negative_points_cheese (st : CalcState) :
    calculate_negative_points st CHEESE =
      points_by_threshold st.energy ENERGY_THRESHOLD
      + points_by_threshold st.saturated_fat SATURATED_FAT_THRESHOLD
      + points_by_threshold st.sugars SUGARS_THRESHOLD
      + points_by_threshold st.sodium SODIUM_THRESHOLD := rfl

theorem calculate_negative_points_fats (st : CalcState) :
    calculate_negative_points st FATS_NUTS_SEEDS =
      points_by_threshold st.energy_from_saturates ENERGY_FROM_SATURATES_THRESHOLD
      + points_by_threshold st.sugars SUGARS_THRESHOLD
      + points_by_threshold st.saturates_over_total_fat SATURATES_OVER_TOTAL_FAT_THRESHOLD
      + points_by_threshold st.sodium SODIUM_THRESHOLD := rfl

theorem calculate_negative_points_beverages (st : CalcState) :
    calculate_negative_points st BEVERAGES =
      points_by_threshold st.energy ENERGY_BEVERAGES_THRESHOLD
      + points_by_threshold st.saturated_fat SATURATED_FAT_THRESHOLD
      + points_by_threshold st.sugars SUGARS_BEVERAGES_THRESHOLD
      + points_by_threshold st.sodium SODIUM_THRESHOLD
      + (if st.nn_sweeteners then 4 else 0) := rfl

theorem calculate_positive_points_general (st : CalcState) (np : ℕ) :
    calculate_positive_points st GENERAL_FOOD np =
      (if 11 ≤ np then 0 else points_by_threshold st.protein PROTEIN_THRESHOLD)
      + points_by_threshold st.fiber FIBER_THRESHOLD
      + points_by_threshold st.fruit_percentage FRUIT_THRESHOLD := by
  simp +decide [calculate_positive_points]

theorem calculate_positive_points_red_meat (st : CalcState) (np : ℕ) :
    calculate_positive_points st RED_MEAT np =
      (if 11 ≤ np then 0 else min (points_by_threshold st.protein PROTEIN_THRESHOLD) 2)
      + points_by_threshold st.fiber FIBER_THRESHOLD
      + points_by_threshold st.fruit_percentage FRUIT_THRESHOLD := by
  simp +decide [calculate_positive_points]

theorem calculate_positive_points_cheese (st : CalcState) (np : ℕ) :
    calculate_positive_points st CHEESE np =
      points_by_threshold st.protein PROTEIN_THRESHOLD
      + points_by_threshold st.fiber FIBER_THRESHOLD
      + points_by_threshold st.fruit_percentage FRUIT_THRESHOLD := by
  simp +decide [calculate_positive_points]

theorem calculate_positive_points_fats (st : CalcState) (np : ℕ) :
    calculate_positive_points st FATS_NUTS_SEEDS np =
      (if 7 ≤ np then 0 else points_by_threshold st.protein PROTEIN_THRESHOLD)
      + points_by_threshold st.fiber FIBER_THRESHOLD
      + points_by_threshold st.fruit_percentage FRUIT_THRESHOLD := by
  simp +decide [calculate_positive_points]

theorem calculate_positive_points_beverages (st : CalcState) (np : ℕ) :
    calculate_positive_points st BEVERAGES np =
      points_by_threshold st.protein PROTEIN_BEVERAGES_THRESHOLD
      + points_by_threshold st.fiber FIBER_THRESHOLD
      + points_by_threshold st.fruit_percentage FRUIT_BEVERAGES_THRESHOLD := by
  simp +decide [calculate_positive_points]

theorem calculate_eq_ok (p : Profiles) (n : Nutritions) {ft : String}
    (hft : ft = GENERAL_FOOD ∨ ft = RED_MEAT ∨ ft = CHEESE ∨ ft = FATS_NUTS_SEEDS ∨
      ft = BEVERAGES) :
    calculate p n ft = Except.ok (raw_score p n ft) := by
  rcases hft with h | h | h | h | h <;> subst h <;> rfl

/-! ## Claim theorems -/

/-- C7: `points_by_threshold` returns the index of the first breakpoint
greater than or equal to the value (it is a lower bound of all qualifying
indices and itself qualifies when it is a valid index), returns the list
length when no breakpoint qualifies, and its result always lies in
`[0, length]`, with no error case for any input. -/
theorem C7_points_by_threshold_first_breakpoint (value : ℚ) (threshold_list : List ℚ) :
    points_by_threshold value threshold_list ≤ threshold_list.length ∧
    (∀ i : ℕ, ∀ h : i < threshold_list.length,
      value ≤ threshold_list.get ⟨i, h⟩ → points_by_threshold value threshold_list ≤ i) ∧
    (∀ h : points_by_threshold value threshold_list < threshold_list.length,
      value ≤ threshold_list.get ⟨points_by_threshold value threshold_list, h⟩) ∧
    ((∀ i : ℕ, ∀ h : i < threshold_list.length, ¬ value ≤ threshold_list.get ⟨i, h⟩) →
      points_by_threshold value threshold_list = threshold_list.length) := by
  refine ⟨points_by_threshold_le_length value threshold_list, ?_, ?_, ?_⟩
  · intro i h hv
    induction threshold_list generalizing i with
    | nil => simp at h
    | cons t rest ih =>
      simp only [points_by_threshold]
      by_cases hvt : value ≤ t
      · rw [if_pos hvt]; exact Nat.zero_le _
      · rw [if_neg hvt]
        match i with
        | 0 => exact absurd hv hvt
        | i + 1 => exact Nat.succ_le_succ (ih i (Nat.lt_of_succ_lt_succ h) hv)
  · intro h
    induction threshold_list with
    | nil => simp [points_by_threshold] at h
    | cons t rest ih =>
      revert h
      simp only [points_by_threshold]
      split
      · intro _; simpa
      · intro h
        exact ih (Nat.lt_of_succ_lt_succ h)
  · intro hall
    induction threshold_list with
    | nil => rfl
    | cons t rest ih =>
      have h0 : ¬ value ≤ t := hall 0 (Nat.succ_pos _)
      have hr : points_by_threshold value rest = rest.length :=
        ih (fun i h => hall (i + 1) (Nat.succ_lt_succ h))
      simp [points_by_threshold, if_neg h0, hr]

/-- Witness for C7 at value 3 and breakpoint list [1, 2]: no breakpoint
qualifies, so the result is the list length 2. -/
theorem C7_points_by_threshold_first_breakpoint_witness :
    points_by_threshold 3 [1, 2] = 2 :=
  (C7_points_by_threshold_first_breakpoint 3 [1, 2]).2.2.2 (by decide)

/-- C4: `convert_nutri_score` clamps solid raw scores below -3 to 100 and
at or above 19 to 0, clamps liquid raw scores below -3 to 80 and at or
above 10 to 0, and at raw score exactly -3 returns the non-clamped
conversion-table value in both domains. -/
theorem C4_convert_nutri_score_clamps (data : ConversionTable) (s : ℤ) :
    (s < -3 → convert_nutri_score data s true = 100) ∧
    (19 ≤ s → convert_nutri_score data s true = 0) ∧
    (s < -3 → convert_nutri_score data s false = 80) ∧
    (10 ≤ s → convert_nutri_score data s false = 0) ∧
    convert_nutri_score data (-3) true = data.solid (-3) ∧
    convert_nutri_score data (-3) false = data.liquid (-3) := by
  refine ⟨?_, ?_, ?_, ?_, ?_, ?_⟩
  · intro h; simp [convert_nutri_score, h]
  · intro h
    rw [convert_nutri_score, if_pos rfl, if_neg (by omega), if_pos h]
  · intro h; simp [convert_nutri_score, h]
  · intro h
    rw [convert_nutri_score, if_neg (by simp), if_neg (by omega), if_pos h]
  · rw [convert_nutri_score, if_pos rfl, if_neg (by omega), if_neg (by omega)]
  · rw [convert_nutri_score, if_neg (by simp), if_neg (by omega), if_neg (by omega)]

/-- Witness for C4 at raw scores -4, 19, 10 and -3 with a concrete
constant conversion table. -/
theorem C4_convert_nutri_score_clamps_witness :
    convert_nutri_score const_conversion_table (-4) true = 100 ∧
    convert_nutri_score const_conversion_table 19 true = 0 ∧
    convert_nutri_score const_conversion_table (-4) false = 80 ∧
    convert_nutri_score const_conversion_table 10 false = 0 ∧
    convert_nutri_score const_conversion_table (-3) true = const_conversion_table.solid (-3) :=
  ⟨(C4_convert_nutri_score_clamps const_conversion_table (-4)).1 (by decide),
   (C4_convert_nutri_score_clamps const_conversion_table 19).2.1 (by decide),
   (C4_convert_nutri_score_clamps const_conversion_table (-4)).2.2.1 (by decide),
   (C4_convert_nutri_score_clamps const_conversion_table 10).2.2.2.1 (by decide),
   (C4_convert_nutri_score_clamps const_conversion_table (-3)).2.2.2.2.1⟩

/-- C5: `calculate` fails with the invalid-food-type error exactly when
the food type is not one of the six enumerated categories (no partial
result is produced in that case), and returns 0 immediately for water
regardless of the nutrient values. -/
theorem C5_calculate_invalid_category_and_water (p : Profiles) (n : Nutritions) (ft : String) :
    ((∃ msg, calculate p n ft = Except.error msg) ↔
      ft ∉ [GENERAL_FOOD, RED_MEAT, CHEESE, FATS_NUTS_SEEDS, BEVERAGES, WATER]) ∧
    calculate p n WATER = Except.ok 0 := by
  constructor
  · by_cases hmem : ft ∈ [GENERAL_FOOD, RED_MEAT, CHEESE, FATS_NUTS_SEEDS, BEVERAGES, WATER]
    · simp only [calculate, hmem, not_true_eq_false, if_false, iff_false, not_exists]
      intro msg
      by_cases hw : ft = WATER <;> simp [hw]
    · simp only [calculate, hmem, not_false_eq_true, if_true, iff_true]
      exact ⟨INVALID_FOOD_TYPE ft, rfl⟩
  · rfl

/-- C6 counterexample: with a caller-supplied cap of 0 and a computed
additive penalty of 30, the code returns 30, not the cap 0 — the Python
`or` defaulting replaces the falsy cap 0 by the default 50, so the claim
fails for the supplied cap 0. -/
theorem C6_cap_counterexample :
    capped_additives_risk 30 (some 0) = 30 ∧ capped_additives_risk 30 (some 0) ≠ 0 := by
  constructor <;> decide

/-- C6 (amended): for every additive identifier list, reference table and
caller-supplied nonzero cap (a supplied cap of 0 is replaced by the
default 50, because the code defaults with Python `or`; an absent cap
also defaults to 50): when the computed additive penalty exceeds the cap,
the penalty used equals the cap exactly; otherwise the computed penalty
is used unchanged. -/
theorem C6_cap_enforcement (data : List AdditiveRecord) (additives : List String) (cap : ℕ)
    (hcap : cap ≠ 0) :
    max_additive_penalty_of (some cap) = cap ∧
    max_additive_penalty_of none = 50 ∧
    (cap < (calculate_additive_risk data additives).1 →
      capped_additives_risk (calculate_additive_risk data additives).1 (some cap) = cap) ∧
    ((calculate_additive_risk data additives).1 ≤ cap →
      capped_additives_risk (calculate_additive_risk data additives).1 (some cap) =
        (calculate_additive_risk data additives).1) := by
  have hmax : max_additive_penalty_of (some cap) = cap := by
    simp [max_additive_penalty_of, hcap]
  refine ⟨hmax, rfl, ?_, ?_⟩
  · intro h
    rw [capped_additives_risk, hmax]
    omega
  · intro h
    rw [capped_additives_risk, hmax]
    omega

/-- Witness for C6 with the empty reference table, the empty identifier
list and cap 7: the computed penalty 0 does not exceed the cap and is
used unchanged. -/
theorem C6_cap_enforcement_witness :
    max_additive_penalty_of (some 7) = 7 ∧
    capped_additives_risk (calculate_additive_risk [] []).1 (some 7) =
      (calculate_additive_risk [] []).1 :=
  ⟨(C6_cap_enforcement [] [] 7 (by decide)).1,
   (C6_cap_enforcement [] [] 7 (by decide)).2.2.2 (by decide)⟩

/-- C9: the final score equals
`max(scaled - additive_penalty - (0 if organic else non_organic_penalty), 0)`,
is never negative, and has no upper clamp beyond the 0-100 bound already
enforced on the scaled score: whenever the difference is non-negative the
final score equals the difference itself. -/
theorem C9_final_score_formula (scaled additives_risk : ℤ) (organic : Bool)
    (profile_value : Option ℤ) :
    final_score scaled additives_risk organic profile_value =
      max (scaled - additives_risk - (if organic then 0 else profile_value.getD 10)) 0 ∧
    0 ≤ final_score scaled additives_risk organic profile_value ∧
    (0 ≤ scaled - additives_risk - non_organic_penalty_value organic profile_value →
      final_score scaled additives_risk organic profile_value =
        scaled - additives_risk - non_organic_penalty_value organic profile_value) ∧
    (scaled - additives_risk - non_organic_penalty_value organic profile_value < 0 →
      final_score scaled additives_risk organic profile_value = 0) := by
  refine ⟨rfl, le_max_right _ _, ?_, ?_⟩
  · intro h
    exact max_eq_left h
  · intro h
    exact max_eq_right (le_of_lt h)

/-- Witness for C9: an organic product with scaled score 120 and additive
penalty 5 keeps the full difference 115 — above 100, no upper clamp. -/
theorem C9_final_score_formula_witness :
    (0 : ℤ) ≤ 120 - 5 - non_organic_penalty_value true none ∧
    final_score 120 5 true none = 120 - 5 - non_organic_penalty_value true none :=
  ⟨by decide, (C9_final_score_formula 120 5 true none).2.2.1 (by decide)⟩

/-- C10 counterexample: the general-food category also yields the letter
"A" (at raw score 0), so water is not the only category that can yield
"A". -/
theorem C10_general_food_A_counterexample :
    categorize 0 GENERAL_FOOD = Except.ok "A" ∧ GENERAL_FOOD ≠ WATER := by
  constructor
  · rfl
  · decide

/-- C10 (amended): `categorize` with the beverages category never returns
the letter "A": the beverage threshold table starts at (1, "B"), so the
best letter any beverage can receive is "B" (for scores at most 1), and
of the two liquid categories only water yields "A" (some non-beverage
categories can also yield "A", e.g. general food at score 0). -/
theorem C10_beverages_never_A (s : ℤ) :
    categorize s BEVERAGES ≠ Except.ok "A" ∧
    (s ≤ 1 → categorize s BEVERAGES = Except.ok "B") ∧
    categorize s WATER = Except.ok "A" := by
  have hb : categorize s BEVERAGES =
      Except.ok (categorize_loop BEVERAGES_CATEGORY_THRESHOLD s) := by
    simp [categorize, BEVERAGES, WATER, GENERAL_FOOD, RED_MEAT, CHEESE, FATS_NUTS_SEEDS]
  refine ⟨?_, ?_, rfl⟩
  · rw [hb]
    simp only [BEVERAGES_CATEGORY_THRESHOLD, categorize_loop]
    split_ifs <;> simp
  · intro h
    rw [hb]
    simp [BEVERAGES_CATEGORY_THRESHOLD, categorize_loop, h]

/-- Witness for C10 at score 0: a beverage with raw score 0 gets letter
"B". -/
theorem C10_beverages_never_A_witness :
    categorize 0 BEVERAGES = Except.ok "B" :=
  (C10_beverages_never_A 0).2.1 (by decide)

/-- C1 counterexample: on the end-to-end example input (energy 1700,
saturated fat 4, sugars 20, sodium 1.0, fiber 4.5, protein 10, fruit
percentage 0, default profiles, general-food category) the code gives
sugars points 5 (20 is at index 5 of the sugars table), negative points
17, and fiber points 2 (4.5 exceeds 4.1, the index-1 entry) — not the
claimed 6, 18 and 3. -/
theorem C1_example_counterexample :
    points_by_threshold (get_input default_profiles example_nutritions).sugars
      SUGARS_THRESHOLD ≠ 6 ∧
    calculate_negative_points (get_input default_profiles example_nutritions)
      GENERAL_FOOD ≠ 18 ∧
    points_by_threshold (get_input default_profiles example_nutritions).fiber
      FIBER_THRESHOLD ≠ 3 := by
  have hsu : points_by_threshold (get_input default_profiles example_nutritions).sugars
      SUGARS_THRESHOLD = 5 := by
    norm_num [get_input, default_profiles, example_nutritions, points_by_threshold,
      SUGARS_THRESHOLD]
  have hfi : points_by_threshold (get_input default_profiles example_nutritions).fiber
      FIBER_THRESHOLD = 2 := by
    norm_num [get_input, default_profiles, example_nutritions, points_by_threshold,
      FIBER_THRESHOLD]
  have hen : points_by_threshold (get_input default_profiles example_nutritions).energy
      ENERGY_THRESHOLD = 5 := by
    norm_num [get_input, default_profiles, example_nutritions, points_by_threshold,
      ENERGY_THRESHOLD]
  have hsa : points_by_threshold (get_input default_profiles example_nutritions).saturated_fat
      SATURATED_FAT_THRESHOLD = 3 := by
    norm_num [get_input, default_profiles, example_nutritions, points_by_threshold,
      SATURATED_FAT_THRESHOLD]
  have hso : points_by_threshold (get_input default_profiles example_nutritions).sodium
      SODIUM_THRESHOLD = 4 := by
    norm_num [get_input, default_profiles, example_nutritions, points_by_threshold,
      SODIUM_THRESHOLD]
  refine ⟨by omega, ?_, by omega⟩
  rw [calculate_negative_points_general, hen, hsa, hsu, hso]
  omega

/-- C1 (amended): for the general-food category with default profile
factors, the inputs energy=1700, saturated_fat=4, sugars=20, sodium=1.0,
fiber=4.5, protein=10, fruit percentage=0 yield per-component points
energy=5, saturated_fat=3, sugars=5, sodium=4, hence negative points 17;
fiber points 2, protein points forced to 0 (the unforced value would be
4, but negative points are at least 11), fruit points 0, hence positive
points 2; and `calculate` returns raw score 15. -/
theorem C1_end_to_end_example :
    points_by_threshold (get_input default_profiles example_nutritions).energy
      ENERGY_THRESHOLD = 5 ∧
    points_by_threshold (get_input default_profiles example_nutritions).saturated_fat
      SATURATED_FAT_THRESHOLD = 3 ∧
    points_by_threshold (get_input default_profiles example_nutritions).sugars
      SUGARS_THRESHOLD = 5 ∧
    points_by_threshold (get_input default_profiles example_nutritions).sodium
      SODIUM_THRESHOLD = 4 ∧
    calculate_negative_points (get_input default_profiles example_nutritions)
      GENERAL_FOOD = 17 ∧
    points_by_threshold (get_input default_profiles example_nutritions).fiber
      FIBER_THRESHOLD = 2 ∧
    points_by_threshold (get_input default_profiles example_nutritions).protein
      PROTEIN_THRESHOLD = 4 ∧
    points_by_threshold (get_input default_profiles example_nutritions).fruit_percentage
      FRUIT_THRESHOLD = 0 ∧
    calculate_positive_points (get_input default_profiles example_nutritions)
      GENERAL_FOOD 17 = 2 ∧
    calculate default_profiles example_nutritions GENERAL_FOOD = Except.ok 15 := by
  have hen : points_by_threshold (get_input default_profiles example_nutritions).energy
      ENERGY_THRESHOLD = 5 := by
    norm_num [get_input, default_profiles, example_nutritions, points_by_threshold,
      ENERGY_THRESHOLD]
  have hsa : points_by_threshold (get_input default_profiles example_nutritions).saturated_fat
      SATURATED_FAT_THRESHOLD = 3 := by
    norm_num [get_input, default_profiles, example_nutritions, points_by_threshold,
      SATURATED_FAT_THRESHOLD]
  have hsu : points_by_threshold (get_input default_profiles example_nutritions).sugars
      SUGARS_THRESHOLD = 5 := by
    norm_num [get_input, default_profiles, example_nutritions, points_by_threshold,
      SUGARS_THRESHOLD]
  have hso : points_by_threshold (get_input default_profiles example_nutritions).sodium
      SODIUM_THRESHOLD = 4 := by
    norm_num [get_input, default_profiles, example_nutritions, points_by_threshold,
      SODIUM_THRESHOLD]
  have hfi : points_by_threshold (get_input default_profiles example_nutritions).fiber
      FIBER_THRESHOLD = 2 := by
    norm_num [get_input, default_profiles, example_nutritions, points_by_threshold,
      FIBER_THRESHOLD]
  have hpr : points_by_threshold (get_input default_profiles example_nutritions).protein
      PROTEIN_THRESHOLD = 4 := by
    norm_num [get_input, default_profiles, example_nutritions, points_by_threshold,
      PROTEIN_THRESHOLD]
  have hfr : points_by_threshold (get_input default_profiles example_nutritions).fruit_percentage
      FRUIT_THRESHOLD = 0 := by
    norm_num [get_input, default_profiles, example_nutritions, points_by_threshold,
      FRUIT_THRESHOLD]
  have hneg : calculate_negative_points (get_input default_profiles example_nutritions)
      GENERAL_FOOD = 17 := by
    rw [calculate_negative_points_general, hen, hsa, hsu, hso]
  have hpos : calculate_positive_points (get_input default_profiles example_nutritions)
      GENERAL_FOOD 17 = 2 := by
    rw [calculate_positive_points_general, if_pos (by omega), hfi, hfr]
  refine ⟨hen, hsa, hsu, hso, hneg, hfi, hpr, hfr, hpos, ?_⟩
  rw [calculate_eq_ok default_profiles example_nutritions (Or.inl rfl)]
  simp only [raw_score]
  rw [hneg, hpos]
  norm_num

/-- C8 counterexample: the raw score is not confined to -15..40. With all
negative components saturated (energy 10000, saturated fat 100, sugars
100, sodium 10) the general-food raw score is 55; with all positive
components saturated (protein, fiber, fruit percentage 100) and zero
negative components the beverage raw score is -18. -/
theorem C8_range_counterexample :
    calculate default_profiles max_negative_nutritions GENERAL_FOOD = Except.ok 55 ∧
    ¬ ((55 : ℤ) ≤ 40) ∧
    calculate default_profiles max_positive_nutritions BEVERAGES = Except.ok (-18) ∧
    ¬ ((-15 : ℤ) ≤ -18) := by
  have hneg : calculate_negative_points (get_input default_profiles max_negative_nutritions)
      GENERAL_FOOD = 55 := by
    rw [calculate_negative_points_general]
    have h1 : points_by_threshold (get_input default_profiles max_negative_nutritions).energy
        ENERGY_THRESHOLD = 10 := by
      norm_num [get_input, default_profiles, max_negative_nutritions, points_by_threshold,
        ENERGY_THRESHOLD]
    have h2 : points_by_threshold
        (get_input default_profiles max_negative_nutritions).saturated_fat
        SATURATED_FAT_THRESHOLD = 10 := by
      norm_num [get_input, default_profiles, max_negative_nutritions, points_by_threshold,
        SATURATED_FAT_THRESHOLD]
    have h3 : points_by_threshold (get_input default_profiles max_negative_nutritions).sugars
        SUGARS_THRESHOLD = 15 := by
      norm_num [get_input, default_profiles, max_negative_nutritions, points_by_threshold,
        SUGARS_THRESHOLD]
    have h4 : points_by_threshold (get_input default_profiles max_negative_nutritions).sodium
        SODIUM_THRESHOLD = 20 := by
      norm_num [get_input, default_profiles, max_negative_nutritions, points_by_threshold,
        SODIUM_THRESHOLD]
    rw [h1, h2, h3, h4]
  have hpos : calculate_positive_points (get_input default_profiles max_negative_nutritions)
      GENERAL_FOOD 55 = 0 := by
    rw [calculate_positive_points_general, if_pos (by omega)]
    have h5 : points_by_threshold (get_input default_profiles max_negative_nutritions).fiber
        FIBER_THRESHOLD = 0 := by
      norm_num [get_input, default_profiles, max_negative_nutritions, points_by_threshold,
        FIBER_THRESHOLD]
    have h6 : points_by_threshold
        (get_input default_profiles max_negative_nutritions).fruit_percentage
        FRUIT_THRESHOLD = 0 := by
      norm_num [get_input, default_profiles, max_negative_nutritions, points_by_threshold,
        FRUIT_THRESHOLD]
    rw [h5, h6]
  have hnegb : calculate_negative_points (get_input default_profiles max_positive_nutritions)
      BEVERAGES = 0 := by
    rw [calculate_negative_points_beverages]
    have h1 : points_by_threshold (get_input default_profiles max_positive_nutritions).energy
        ENERGY_BEVERAGES_THRESHOLD = 0 := by
      norm_num [get_input, default_profiles, max_positive_nutritions, points_by_threshold,
        ENERGY_BEVERAGES_THRESHOLD]
    have h2 : points_by_threshold
        (get_input default_profiles max_positive_nutritions).saturated_fat
        SATURATED_FAT_THRESHOLD = 0 := by
      norm_num [get_input, default_profiles, max_positive_nutritions, points_by_threshold,
        SATURATED_FAT_THRESHOLD]
    have h3 : points_by_threshold (get_input default_profiles max_positive_nutritions).sugars
        SUGARS_BEVERAGES_THRESHOLD = 0 := by
      norm_num [get_input, default_profiles, max_positive_nutritions, points_by_threshold,
        SUGARS_BEVERAGES_THRESHOLD]
    have h4 : points_by_threshold (get_input default_profiles max_positive_nutritions).sodium
        SODIUM_THRESHOLD = 0 := by
      norm_num [get_input, default_profiles, max_positive_nutritions, points_by_threshold,
        SODIUM_THRESHOLD]
    have h5 : (get_input default_profiles max_positive_nutritions).nn_sweeteners = false := rfl
    rw [h1, h2, h3, h4, h5]
    simp
  have hposb : calculate_positive_points (get_input default_profiles max_positive_nutritions)
      BEVERAGES 0 = 18 := by
    rw [calculate_positive_points_beverages]
    have h6 : points_by_threshold (get_input default_profiles max_positive_nutritions).protein
        PROTEIN_BEVERAGES_THRESHOLD = 7 := by
      norm_num [get_input, default_profiles, max_positive_nutritions, points_by_threshold,
        PROTEIN_BEVERAGES_THRESHOLD]
    have h7 : points_by_threshold (get_input default_profiles max_positive_nutritions).fiber
        FIBER_THRESHOLD = 5 := by
      norm_num [get_input, default_profiles, max_positive_nutritions, points_by_threshold,
        FIBER_THRESHOLD]
    have h8 : points_by_threshold
        (get_input default_profiles max_positive_nutritions).fruit_percentage
        FRUIT_BEVERAGES_THRESHOLD = 6 := by
      norm_num [get_input, default_profiles, max_positive_nutritions, points_by_threshold,
        FRUIT_BEVERAGES_THRESHOLD]
    rw [h6, h7, h8]
  refine ⟨?_, by omega, ?_, by omega⟩
  · rw [calculate_eq_ok default_profiles max_negative_nutritions (Or.inl rfl)]
    simp only [raw_score]
    rw [hneg, hpos]
    norm_num
  · rw [calculate_eq_ok default_profiles max_positive_nutritions
      (Or.inr (Or.inr (Or.inr (Or.inr rfl))))]
    simp only [raw_score]
    rw [hnegb, hposb]
    norm_num

/-- C8 (amended): for every valid non-water category and every nutrition
input and profile, the raw signed nutri-score returned by `calculate`
lies in the range -18..55 inclusive (the tables allow negative points up
to 55 and positive points up to 18; the claimed -15..40 is exceeded on
both ends, see the counterexample). -/
theorem C8_raw_score_range (p : Profiles) (n : Nutritions) {ft : String}
    (hft : ft = GENERAL_FOOD ∨ ft = RED_MEAT ∨ ft = CHEESE ∨ ft = FATS_NUTS_SEEDS ∨
      ft = BEVERAGES) :
    calculate p n ft = Except.ok (raw_score p n ft) ∧
    -18 ≤ raw_score p n ft ∧ raw_score p n ft ≤ 55 := by
  refine ⟨calculate_eq_ok p n hft, ?_⟩
  have h_en : points_by_threshold (get_input p n).energy ENERGY_THRESHOLD ≤ 10 :=
    points_by_threshold_le_length _ _
  have h_sa : points_by_threshold (get_input p n).saturated_fat SATURATED_FAT_THRESHOLD ≤ 10 :=
    points_by_threshold_le_length _ _
  have h_su : points_by_threshold (get_input p n).sugars SUGARS_THRESHOLD ≤ 15 :=
    points_by_threshold_le_length _ _
  have h_so : points_by_threshold (get_input p n).sodium SODIUM_THRESHOLD ≤ 20 :=
    points_by_threshold_le_length _ _
  have h_es : points_by_threshold (get_input p n).energy_from_saturates
      ENERGY_FROM_SATURATES_THRESHOLD ≤ 10 := points_by_threshold_le_length _ _
  have h_sf : points_by_threshold (get_input p n).saturates_over_total_fat
      SATURATES_OVER_TOTAL_FAT_THRESHOLD ≤ 10 := points_by_threshold_le_length _ _
  have h_eb : points_by_threshold (get_input p n).energy ENERGY_BEVERAGES_THRESHOLD ≤ 10 :=
    points_by_threshold_le_length _ _
  have h_sb : points_by_threshold (get_input p n).sugars SUGARS_BEVERAGES_THRESHOLD ≤ 10 :=
    points_by_threshold_le_length _ _
  have h_pr : points_by_threshold (get_input p n).protein PROTEIN_THRESHOLD ≤ 7 :=
    points_by_threshold_le_length _ _
  have h_pb : points_by_threshold (get_input p n).protein PROTEIN_BEVERAGES_THRESHOLD ≤ 7 :=
    points_by_threshold_le_length _ _
  have h_fi : points_by_threshold (get_input p n).fiber FIBER_THRESHOLD ≤ 5 :=
    points_by_threshold_le_length _ _
  have h_fr : points_by_threshold (get_input p n).fruit_percentage FRUIT_THRESHOLD ≤ 5 :=
    points_by_threshold_le_length _ _
  have h_fb : points_by_threshold (get_input p n).fruit_percentage FRUIT_BEVERAGES_THRESHOLD ≤ 6 :=
    points_by_threshold_le_length _ _
  rcases hft with h | h | h | h | h <;> subst h
  · simp only [raw_score, calculate_negative_points_general, calculate_positive_points_general]
    split_ifs <;> omega
  · simp only [raw_score, calculate_negative_points_red_meat, calculate_positive_points_red_meat]
    split_ifs <;> omega
  · simp only [raw_score, calculate_negative_points_cheese, calculate_positive_points_cheese]
    omega
  · simp only [raw_score, calculate_negative_points_fats, calculate_positive_points_fats]
    split_ifs <;> omega
  · simp only [raw_score, calculate_negative_points_beverages,
      calculate_positive_points_beverages]
    split_ifs <;> omega

/-- Witness for C8 at the end-to-end example input in the general-food
category: the raw score 15 lies within -18..55. -/
theorem C8_raw_score_range_witness :
    calculate default_profiles example_nutritions GENERAL_FOOD =
      Except.ok (raw_score default_profiles example_nutritions GENERAL_FOOD) ∧
    -18 ≤ raw_score default_profiles example_nutritions GENERAL_FOOD ∧
    raw_score default_profiles example_nutritions GENERAL_FOOD ≤ 55 :=
  C8_raw_score_range default_profiles example_nutritions (Or.inl rfl)

theorem mul_profile_mono (x : ℚ) {d ρ : ℚ} (hd : 0 ≤ d) (hρ : 0 ≤ ρ) :
    x * ρ ≤ (x + d) * ρ := by nlinarith [mul_nonneg hd hρ]

/-- C2: for every fixed non-water category, every non-negative profile
factor assignment and all other nutrient fields held constant, increasing
any negative-component nutrient (energy, energy from saturates, saturated
fat, saturates-over-total-fat ratio, sugars, sodium) by a non-negative
amount never decreases the raw score returned by `calculate`, and
increasing fiber, protein or the fruit percentage never increases it. -/
theorem C2_raw_score_monotone (p : Profiles) (n : Nutritions) {ft : String} (d : ℚ)
    (hp : 0 ≤ p.energy_profile ∧ 0 ≤ p.saturated_fat_profile ∧ 0 ≤ p.sugar_profile ∧
      0 ≤ p.sodium_profile)
    (hft : ft = GENERAL_FOOD ∨ ft = RED_MEAT ∨ ft = CHEESE ∨ ft = FATS_NUTS_SEEDS ∨
      ft = BEVERAGES)
    (hd : 0 ≤ d) :
    calculate p n ft = Except.ok (raw_score p n ft) ∧
    raw_score p n ft ≤ raw_score p { n with energy := n.energy + d } ft ∧
    raw_score p n ft ≤
      raw_score p { n with energy_from_saturates := n.energy_from_saturates + d } ft ∧
    raw_score p n ft ≤ raw_score p { n with saturated_fat := n.saturated_fat + d } ft ∧
    raw_score p n ft ≤
      raw_score p { n with saturates_over_total_fat := n.saturates_over_total_fat + d } ft ∧
    raw_score p n ft ≤ raw_score p { n with sugars := n.sugars + d } ft ∧
    raw_score p n ft ≤ raw_score p { n with sodium := n.sodium + d } ft ∧
    raw_score p { n with protein := n.protein + d } ft ≤ raw_score p n ft ∧
    raw_score p { n with fiber := n.fiber + d } ft ≤ raw_score p n ft ∧
    raw_score p { n with fruit_percentage := n.fruit_percentage + d } ft ≤ raw_score p n ft := by
  obtain ⟨hpe, hpsf, hpsu, hpso⟩ := hp
  have hself : ∀ x : ℚ, x ≤ x + d := fun x => by linarith
  have k_en := points_by_threshold_mono ENERGY_THRESHOLD (mul_profile_mono n.energy hd hpe)
  have k_enb :=
    points_by_threshold_mono ENERGY_BEVERAGES_THRESHOLD (mul_profile_mono n.energy hd hpe)
  have k_es := points_by_threshold_mono ENERGY_FROM_SATURATES_THRESHOLD
    (mul_profile_mono n.energy_from_saturates hd hpe)
  have k_sa := points_by_threshold_mono SATURATED_FAT_THRESHOLD
    (mul_profile_mono n.saturated_fat hd hpsf)
  have k_sf := points_by_threshold_mono SATURATES_OVER_TOTAL_FAT_THRESHOLD
    (mul_profile_mono n.saturates_over_total_fat hd hpsf)
  have k_su := points_by_threshold_mono SUGARS_THRESHOLD (mul_profile_mono n.sugars hd hpsu)
  have k_sub :=
    points_by_threshold_mono SUGARS_BEVERAGES_THRESHOLD (mul_profile_mono n.sugars hd hpsu)
  have k_so := points_by_threshold_mono SODIUM_THRESHOLD (mul_profile_mono n.sodium hd hpso)
  have k_pr := points_by_threshold_mono PROTEIN_THRESHOLD (hself n.protein)
  have k_prb := points_by_threshold_mono PROTEIN_BEVERAGES_THRESHOLD (hself n.protein)
  have k_fi := points_by_threshold_mono FIBER_THRESHOLD (hself n.fiber)
  have k_fr := points_by_threshold_mono FRUIT_THRESHOLD (hself n.fruit_percentage)
  have k_frb := points_by_threshold_mono FRUIT_BEVERAGES_THRESHOLD (hself n.fruit_percentage)
  refine ⟨calculate_eq_ok p n hft, ?_, ?_, ?_, ?_, ?_, ?_, ?_, ?_, ?_⟩ <;>
    rcases hft with h | h | h | h | h <;> subst h <;>
    simp only [raw_score, get_input,
      calculate_negative_points_general, calculate_negative_points_red_meat,
      calculate_negative_points_cheese, calculate_negative_points_fats,
      calculate_negative_points_beverages,
      calculate_positive_points_general, calculate_positive_points_red_meat,
      calculate_positive_points_cheese, calculate_positive_points_fats,
      calculate_positive_points_beverages] <;>
    first
      | (split_ifs <;> omega)
      | omega

/-- Witness for C2 at the end-to-end example input, general-food
category, default profiles and increment 1: increasing sugars does not
decrease the raw score. -/
theorem C2_raw_score_monotone_witness :
    (0 : ℚ) ≤ 1 ∧
    raw_score default_profiles example_nutritions GENERAL_FOOD ≤
      raw_score default_profiles
        { example_nutritions with sugars := example_nutritions.sugars + 1 } GENERAL_FOOD :=
  ⟨zero_le_one,
   (C2_raw_score_monotone default_profiles example_nutritions 1
      ⟨zero_le_one, zero_le_one, zero_le_one, zero_le_one⟩
      (Or.inl rfl) zero_le_one).2.2.2.2.2.1⟩

theorem getD_set_bool (l : List Bool) {i : ℕ} (k : ℕ) (b : Bool) (hi : i < l.length) :
    (l.set i b).getD k false = if i = k then b else l.getD k false := by
  induction l generalizing i k with
  | nil => simp at hi
  | cons h t ih =>
    match i, k with
    | 0, 0 => rfl
    | 0, k + 1 => rfl
    | i + 1, 0 => rfl
    | i + 1, k + 1 =>
      have hi' : i < t.length := Nat.lt_of_succ_lt_succ hi
      have hset : (h :: t).set (i + 1) b = h :: t.set i b := rfl
      rw [hset, List.getD_cons_succ, List.getD_cons_succ, ih k hi']
      by_cases hik : i = k
      · simp [hik]
      · rw [if_neg hik, if_neg (by omega)]

theorem foldl_apply_match_total (prs : List (AdditiveRecord × String)) (st : RiskState) :
    (prs.foldl (fun a pr => apply_match a pr.1 pr.2) st).total_risk =
      st.total_risk +
        (prs.map (fun pr => RISK_PER_ADDITIVE_PENALTY.getD (effective_risk pr.1) 0)).sum := by
  induction prs generalizing st with
  | nil => simp
  | cons pr rest ih =>
    simp only [List.foldl_cons, List.map_cons, List.sum_cons]
    rw [ih]
    simp only [apply_match]
    omega

theorem foldl_apply_match_length (prs : List (AdditiveRecord × String)) (st : RiskState) :
    (prs.foldl (fun a pr => apply_match a pr.1 pr.2) st).risk_level_present.length =
      st.risk_level_present.length := by
  induction prs generalizing st with
  | nil => rfl
  | cons pr rest ih =>
    simp only [List.foldl_cons]
    rw [ih]
    simp [apply_match]

theorem foldl_apply_match_present (prs : List (AdditiveRecord × String)) (st : RiskState)
    (k : ℕ) (hk : k < st.risk_level_present.length)
    (hwf : ∀ pr ∈ prs, effective_risk pr.1 < st.risk_level_present.length) :
    (prs.foldl (fun a pr => apply_match a pr.1 pr.2) st).risk_level_present.getD k false =
      (st.risk_level_present.getD k false || prs.any (fun pr => effective_risk pr.1 == k)) := by
  induction prs generalizing st with
  | nil => simp
  | cons pr rest ih =>
    simp only [List.foldl_cons, List.any_cons]
    have hlen : (apply_match st pr.1 pr.2).risk_level_present.length =
        st.risk_level_present.length := by simp [apply_match]
    have hk' : k < (apply_match st pr.1 pr.2).risk_level_present.length := by
      rw [hlen]; exact hk
    have hwf' : ∀ q ∈ rest,
        effective_risk q.1 < (apply_match st pr.1 pr.2).risk_level_present.length := by
      intro q hq; rw [hlen]; exact hwf q (List.mem_cons_of_mem _ hq)
    rw [ih _ hk' hwf']
    have heff : effective_risk pr.1 < st.risk_level_present.length :=
      hwf pr (List.mem_cons_self _ _)
    simp only [apply_match]
    rw [getD_set_bool _ k true heff]
    by_cases he : effective_risk pr.1 = k
    · simp [he]
    · have hbeq : (effective_risk pr.1 == k) = false := by
        cases hc : effective_risk pr.1 == k
        · rfl
        · exact absurd (eq_of_beq hc) he
      rw [if_neg he, hbeq, Bool.false_or]

theorem inner_foldl_eq_filter (item : AdditiveRecord) (additives : List String) (st : RiskState) :
    additives.foldl (fun a x => process_additive a item x) st =
      ((additives.filter (fun a => additive_matches a item)).map (fun a => (item, a))).foldl
        (fun a pr => apply_match a pr.1 pr.2) st := by
  induction additives generalizing st with
  | nil => rfl
  | cons a as ih =>
    by_cases hm : additive_matches a item = true
    · have hstep : process_additive st item a = apply_match st item a := by
        simp only [process_additive]
        rw [if_pos hm]
      rw [List.foldl_cons, hstep, List.filter_cons, if_pos hm, List.map_cons, List.foldl_cons]
      exact ih _
    · have hstep : process_additive st item a = st := by
        simp only [process_additive]
        rw [if_neg hm]
      rw [List.foldl_cons, hstep, List.filter_cons, if_neg hm]
      exact ih st

theorem nested_foldl_eq_matched (data : List AdditiveRecord) (additives : List String)
    (st : RiskState) :
    data.foldl (fun acc item => additives.foldl (fun a x => process_additive a item x) acc) st =
      (matched_pairs data additives).foldl (fun a pr => apply_match a pr.1 pr.2) st := by
  induction data generalizing st with
  | nil => rfl
  | cons item rest ih =>
    simp only [List.foldl_cons, matched_pairs, List.foldl_append]
    rw [inner_foldl_eq_filter]
    exact ih _

theorem matched_pairs_fst_mem {data : List AdditiveRecord} {additives : List String}
    {pr : AdditiveRecord × String} (h : pr ∈ matched_pairs data additives) : pr.1 ∈ data := by
  induction data with
  | nil => simp [matched_pairs] at h
  | cons item rest ih =>
    simp only [matched_pairs, List.mem_append] at h
    rcases h with h | h
    · simp only [List.mem_map] at h
      obtain ⟨a, _, rfl⟩ := h
      exact List.mem_cons_self _ _
    · exact List.mem_cons_of_mem _ (ih h)

/-- C3: for every identifier list and reference table whose effective
risk ordinals are in 0..3, `calculate_additive_risk` returns the sum of
one per-matched-record penalty (table [0, 2, 5, 10] indexed by the
effective ordinal) over all matches, plus exactly one presence penalty
(table [0, 5, 15, 30]) for only the highest ordinal marked present — in
particular with ordinals {1, 3} present the presence penalty added is 30
for ordinal 3 only, not 5 + 30 for both (see the witness). -/
theorem C3_additive_risk_decomposition (data : List AdditiveRecord) (additives : List String)
    (hwf : ∀ item ∈ data, effective_risk item ≤ 3) :
    (calculate_additive_risk data additives).1 =
      per_item_total data additives + highest_presence_penalty data additives := by
  have st0_len : (⟨[false, false, false, false], 0, []⟩ : RiskState).risk_level_present.length
      = 4 := rfl
  have hwf' : ∀ pr ∈ matched_pairs data additives,
      effective_risk pr.1 <
        (⟨[false, false, false, false], 0, []⟩ : RiskState).risk_level_present.length := by
    intro pr hpr
    rw [st0_len]
    have := hwf pr.1 (matched_pairs_fst_mem hpr)
    omega
  have hpresent : ∀ k : ℕ, k < 4 →
      ((matched_pairs data additives).foldl (fun a pr => apply_match a pr.1 pr.2)
          (⟨[false, false, false, false], 0, []⟩ : RiskState)).risk_level_present.getD k false =
        (matched_pairs data additives).any (fun pr => effective_risk pr.1 == k) := by
    intro k hk
    rw [foldl_apply_match_present _ _ k (by rw [st0_len]; exact hk) hwf']
    have hfalse : (⟨[false, false, false, false], 0, []⟩ : RiskState).risk_level_present.getD
        k false = false := by
      match k with
      | 0 => rfl
      | 1 => rfl
      | 2 => rfl
      | 3 => rfl
      | m + 4 => rfl
    rw [hfalse]
    exact Bool.false_or _
  have hany : ∀ k : ℕ,
      ((matched_pairs data additives).any (fun pr => effective_risk pr.1 == k) = true) ↔
        k ∈ (matched_pairs data additives).map (fun pr => effective_risk pr.1) := by
    intro k
    simp [List.any_eq_true, List.mem_map]
  simp only [calculate_additive_risk]
  rw [nested_foldl_eq_matched data additives]
  rw [foldl_apply_match_total]
  simp only [presence_bonus]
  rw [hpresent 3 (by omega), hpresent 2 (by omega), hpresent 1 (by omega),
    hpresent 0 (by omega)]
  simp only [per_item_total, highest_presence_penalty]
  rw [Nat.zero_add]
  congr 1
  by_cases h3 : (3 : ℕ) ∈ (matched_pairs data additives).map (fun pr => effective_risk pr.1)
  · rw [if_pos ((hany 3).mpr h3), if_pos h3]
    rfl
  · rw [if_neg (fun hh => h3 ((hany 3).mp hh)), if_neg h3]
    by_cases h2 : (2 : ℕ) ∈ (matched_pairs data additives).map (fun pr => effective_risk pr.1)
    · rw [if_pos ((hany 2).mpr h2), if_pos h2]
      rfl
    · rw [if_neg (fun hh => h2 ((hany 2).mp hh)), if_neg h2]
      by_cases h1 : (1 : ℕ) ∈ (matched_pairs data additives).map (fun pr => effective_risk pr.1)
      · rw [if_pos ((hany 1).mpr h1), if_pos h1]
        rfl
      · rw [if_neg (fun hh => h1 ((hany 1).mp hh)), if_neg h1]
        by_cases h0 : (0 : ℕ) ∈ (matched_pairs data additives).map (fun pr => effective_risk pr.1)
        · rw [if_pos ((hany 0).mpr h0)]
          rfl
        · rw [if_neg (fun hh => h0 ((hany 0).mp hh))]

/-- Witness for C3 with two concrete records of effective ordinals 1 and
3, both matched: the per-item penalties are 2 and 10, and the single
presence penalty is 30 (for ordinal 3 only), total 42 — not 47. -/
theorem C3_additive_risk_decomposition_witness :
    (∀ item ∈ [low_risk_record, high_risk_record], effective_risk item ≤ 3) ∧
    (calculate_additive_risk [low_risk_record, high_risk_record] ["e100", "e200"]).1 =
      per_item_total [low_risk_record, high_risk_record] ["e100", "e200"] +
        highest_presence_penalty [low_risk_record, high_risk_record] ["e100", "e200"] ∧
    (calculate_additive_risk [low_risk_record, high_risk_record] ["e100", "e200"]).1 = 42 :=
  ⟨by decide,
   C3_additive_risk_decomposition [low_risk_record, high_risk_record] ["e100", "e200"]
     (by decide),
   by decide⟩

end NutritionScore
